import Mathlib

/-!
Verification of the append engine of `watcheRS` (src/src/main.rs).

The Rust program is embedded shallowly:
* a `World` records the target file's byte contents, the lines printed to
  standard output, and a trace of observable `Event`s;
* an environment value records, for each fallible OS call of one scheduler
  tick, whether it succeeds and what it returns (file sizes, lock grant);
* `write_line`, `get_size`, `write_nolock_tick` and `write_lock_tick`
  mirror the Rust functions of the same names statement by statement;
* `dispatch` mirrors the `match` in `main`;
* `nowStr` mirrors the `format!("{}.{:0>3}", now.format("%H:%M:%S"),
  now.timestamp_subsec_millis())` expression of `write_line`.
-/

namespace WatcheRS

/-- `static LINE_SIZE: usize = 13usize;` -/
def LINE_SIZE : Nat := 13

/-- Observable events of one or more scheduler ticks, in program order. -/
inductive Event where
  /-- `sleep(*duration)` for a duration of `d` milliseconds. -/
  | sleep (d : Nat)
  /-- `file.sync_all()` succeeded (inside `get_size`). -/
  | syncAll
  /-- `file.metadata()?.size()` succeeded and returned `s` (inside `get_size`). -/
  | measureSize (s : Nat)
  /-- `file_guard::try_lock(&mut file, Lock::Exclusive, start, len)` was
  requested over byte range `[start, start + len)`; `granted` tells whether
  it succeeded. -/
  | tryLock (start len : Nat) (granted : Bool)
  /-- `println!("WARN: Cannot lock the file; append skipped.")`. -/
  | warnContention
  /-- `println!("WARN: The file size has changed; append skipped.")`. -/
  | warnRace
  /-- `writeln!(file, "{}", now_str)` succeeded, appending `line ++ "\n"`. -/
  | appendLine (line : List Char)
  /-- `file.flush()` succeeded. -/
  | flush
  /-- `println!("{}", now_str)` echoed the line to standard output. -/
  | echo (line : List Char)
  /-- `file.sync_data()` succeeded. -/
  | syncData
  /-- The file-range lock was released (`drop(lock)`, also run by unwinding
  after a panic raised while the lock is held). -/
  | releaseLock
deriving DecidableEq, Repr

/-- Process-observable state: the target file's contents (a byte/char
sequence), the lines printed to standard output, and the event trace. -/
structure World where
  fileData : List Char
  stdout : List (List Char)
  events : List Event
deriving DecidableEq, Repr

def World.emit (w : World) (e : Event) : World :=
  { w with events := w.events ++ [e] }

/-- Which of the three fallible I/O calls of `write_line` succeed. -/
structure IOEnv where
  writeOk : Bool
  flushOk : Bool
  syncOk : Bool
deriving DecidableEq, Repr

/-- Result of one call to the embedded `write_line`: `Ok(())` or `Err(_)`. -/
inductive WStatus where
  | ok
  | err
deriving DecidableEq, Repr

/--
```rust
fn write_line(mut file: &File) -> io::Result<()> {
    let now = Local::now();
    let now_str = format!("{}.{:0>3}", now.format(FORMAT_NOW), now.timestamp_subsec_millis());
    writeln!(file, "{}", now_str)?;
    file.flush()?;
    println!("{}", now_str);
    file.sync_data()?;
    Ok(())
}
```
The formatted line is passed in as `line`; `writeln!` appends it followed by
a newline, `println!` echoes it as one stdout line.  A failing call has no
observable effect and makes `write_line` return `Err` at that point (`?`).
-/
def write_line (line : List Char) (env : IOEnv) (w : World) : World × WStatus :=
  if env.writeOk then
    let w1 : World := { w with fileData := w.fileData ++ line ++ ['\n'],
                               events := w.events ++ [Event.appendLine line] }
    if env.flushOk then
      let w2 := w1.emit Event.flush
      let w3 : World := { w2 with stdout := w2.stdout ++ [line],
                                  events := w2.events ++ [Event.echo line] }
      if env.syncOk then (w3.emit Event.syncData, WStatus.ok)
      else (w3, WStatus.err)
    else (w1, WStatus.err)
  else (w, WStatus.err)

/-- Outcome of one call to the embedded `get_size`: at which step (if any)
it fails, and the size the metadata reports when it is reached. -/
inductive SizeEnv where
  /-- `file.sync_all()` returns `Err`. -/
  | syncFails
  /-- `file.metadata()` returns `Err` (or the `usize` conversion fails). -/
  | metaFails
  /-- Every call succeeds; the metadata reports size `s`. -/
  | ok (s : Nat)
deriving DecidableEq, Repr

/--
```rust
fn get_size(file: &File) -> io::Result<usize> {
    file.sync_all()?;
    usize::try_from(file.metadata()?.size()).or_else(
        |err| Err(io::Error::new(io::ErrorKind::InvalidData, err.to_string()))
    )
}
```
-/
def get_size (env : SizeEnv) (w : World) : World × Option Nat :=
  match env with
  | SizeEnv.syncFails => (w, none)
  | SizeEnv.metaFails => (w.emit Event.syncAll, none)
  | SizeEnv.ok s => ((w.emit Event.syncAll).emit (Event.measureSize s), some s)

/-- How one loop iteration ends: fall through to the next iteration, or
abort the whole process (a panic raised by `.expect`, message included). -/
inductive TickOutcome where
  | next
  | fatal (msg : List Char)
deriving DecidableEq, Repr

def msgSize : List Char := "Cannot get the file size.".data
def msgAppend : List Char := "Cannot append a line to the file.".data

/--
```rust
fn write_nolock(file: File, duration: &core::time::Duration) ->! {
    loop {
        sleep(*duration);
        write_line(&file).expect("Cannot append a line to the file.");
    }
}
```
One iteration of the loop body, `d` being the duration in milliseconds and
`line` the timestamp line `write_line` formats on this tick.
-/
def write_nolock_tick (d : Nat) (line : List Char) (env : IOEnv) (w : World) :
    World × TickOutcome :=
  let w := w.emit (Event.sleep d)
  match write_line line env w with
  | (w, WStatus.ok) => (w, TickOutcome.next)
  | (w, WStatus.err) => (w, TickOutcome.fatal msgAppend)

/-- The fallible-call outcomes of one `write_lock` loop iteration. -/
structure LockEnv where
  /-- Outcome of the first `get_size(&file)`. -/
  size1 : SizeEnv
  /-- Whether `file_guard::try_lock` grants the lock. -/
  lockGranted : Bool
  /-- Outcome of the second `get_size(lock.deref())`. -/
  size2 : SizeEnv
  /-- Outcomes of the write/flush/sync calls of `write_line`. -/
  io : IOEnv
deriving DecidableEq, Repr

/--
```rust
fn write_lock(mut file: File, duration: &core::time::Duration) ->! {
    loop {
        sleep(*duration);
        let file_size = get_size(&file).expect("Cannot get the file size.");
        let lock_result = file_guard::try_lock(
            &mut file,
            Lock::Exclusive,
            usize::MIN,
            file_size + LINE_SIZE);
        let Ok(mut lock) = lock_result else {
            println!("WARN: Cannot lock the file; append skipped.");
            continue;
        };
        if get_size(lock.deref()).expect("Cannot get the file size.") != file_size {
            println!("WARN: The file size has changed; append skipped.");
        }
        else {
            write_line(lock.deref_mut()).expect("Cannot append a line to the file.");
        }
        drop(lock);
    }
}
```
One iteration of the loop body.  `usize::MIN` is `0`.  A panic raised by
`.expect` while `lock` is live unwinds and runs `drop(lock)` before the
process dies, hence the `releaseLock` event on those paths too.
-/
def write_lock_tick (d : Nat) (line : List Char) (env : LockEnv) (w : World) :
    World × TickOutcome :=
  let w := w.emit (Event.sleep d)
  match get_size env.size1 w with
  | (w, none) => (w, TickOutcome.fatal msgSize)
  | (w, some file_size) =>
    let w := w.emit (Event.tryLock 0 (file_size + LINE_SIZE) env.lockGranted)
    if env.lockGranted then
      match get_size env.size2 w with
      | (w, none) => (w.emit Event.releaseLock, TickOutcome.fatal msgSize)
      | (w, some s2) =>
        if s2 ≠ file_size then
          (((w.emit Event.warnRace).emit Event.releaseLock), TickOutcome.next)
        else
          match write_line line env.io w with
          | (w, WStatus.ok) => (w.emit Event.releaseLock, TickOutcome.next)
          | (w, WStatus.err) => (w.emit Event.releaseLock, TickOutcome.fatal msgAppend)
    else
      (w.emit Event.warnContention, TickOutcome.next)

/-- The events one tick appends to the trace (the tick functions only ever
extend `w.events`, so this is well defined; proved below). -/
def nolockTickEvents (d : Nat) (line : List Char) (env : IOEnv) : List Event :=
  ((write_nolock_tick d line env
     { fileData := [], stdout := [], events := [] }).1).events

def lockTickEvents (d : Nat) (line : List Char) (env : LockEnv) : List Event :=
  ((write_lock_tick d line env
     { fileData := [], stdout := [], events := [] }).1).events

/-!
## Scheduler loop

Both `write_nolock` and `write_lock` are `loop { ... }` with no `break` and
no `return`; their return type is `!`.  `runTicks` runs the first `n`
iterations of such a loop: once an iteration panics (`TickOutcome.fatal`),
no further iteration runs and the panic message is reported.
-/

def runTicks (tick : Nat → World → World × TickOutcome) :
    Nat → World → World × Option (List Char)
  | 0, w => (w, none)
  | n + 1, w =>
    match runTicks tick n w with
    | (w, none) =>
      match tick n w with
      | (w, TickOutcome.next) => (w, none)
      | (w, TickOutcome.fatal msg) => (w, some msg)
    | (w, some msg) => (w, some msg)

/--
```rust
fn write(file_path: PathBuf, interval: &u32, locking: &bool) ->! {
    ...
    let duration = core::time::Duration::from_millis(*interval as u64);
    ...
    match *locking {
        true => write_lock(file, &duration),
        false => write_nolock(file, &duration)
    }
}
```
`write` performs no validation of `interval`; the duration handed to the
loops is exactly the caller-supplied millisecond count.  `lines n` is the
timestamp line `write_line` formats on tick `n`, and `envs n` the outcomes
of tick `n`'s fallible calls.
-/
def write_run (interval : Nat) (locking : Bool) (lines : Nat → List Char)
    (envs : Nat → LockEnv) (n : Nat) (w : World) : World × Option (List Char) :=
  match locking with
  | true => runTicks (fun i => write_lock_tick interval (lines i) (envs i)) n w
  | false => runTicks (fun i => write_nolock_tick interval (lines i) (envs i).io) n w

/-!
## Timestamp formatting

```rust
static FORMAT_NOW: &'static str = "%H:%M:%S";
let now = Local::now();
let now_str = format!("{}.{:0>3}", now.format(FORMAT_NOW), now.timestamp_subsec_millis());
```
chrono's `%H`, `%M`, `%S` print the hour, minute and second zero-padded to
(at least) two digits, and Rust's `{:0>3}` pads the millisecond count with
leading zeros to at least three characters, never truncating.  A local
wall-clock instant obtained from the POSIX clock has `hour < 24`,
`minute < 60`, `second < 60` and `timestamp_subsec_millis < 1000`.
-/

/-- Decimal digit characters of `n`, most significant first (`Nat.toDigits`
in base 10). -/
def decRepr (n : Nat) : List Char := Nat.toDigits 10 n

/-- Pad `l` on the left with `c` up to width `w` (no truncation), as Rust's
`{:0>w}` / chrono's zero padding do. -/
def padLeft (c : Char) (w : Nat) (l : List Char) : List Char :=
  List.replicate (w - l.length) c ++ l

/-- `now.format("%H:%M:%S")` for the instant `h:m:s`. -/
def fmtHMS (h m s : Nat) : List Char :=
  padLeft '0' 2 (decRepr h) ++ ':' :: padLeft '0' 2 (decRepr m)
    ++ ':' :: padLeft '0' 2 (decRepr s)

/-- `now_str`: `format!("{}.{:0>3}", now.format(FORMAT_NOW), millis)`. -/
def nowStr (h m s ms : Nat) : List Char :=
  fmtHMS h m s ++ '.' :: padLeft '0' 3 (decRepr ms)

/-- The bytes `writeln!` appends to the file for the instant `h:m:s.ms`:
the formatted line followed by a single newline. -/
def appendedLine (h m s ms : Nat) : List Char :=
  nowStr h m s ms ++ ['\n']

/-- `HH:MM:SS.mmm` followed by a single newline: exactly thirteen
characters, digits at the digit positions, `:`, `:`, `.` and `\n` at the
fixed positions. -/
def isTimestampLine : List Char → Bool
  | [h1, h2, c1, m1, m2, c2, s1, s2, dot, d1, d2, d3, nl] =>
    h1.isDigit && h2.isDigit && c1 = ':' && m1.isDigit && m2.isDigit
      && c2 = ':' && s1.isDigit && s2.isDigit && dot = '.'
      && d1.isDigit && d2.isDigit && d3.isDigit && nl = '\n'
  | _ => false

/-!
## CLI dispatch

```rust
match args.command.unwrap_or(Action::Read{ sleep: 10u32, use_polling: false }) {
    Action::Read { sleep: ref interval, use_polling: ref polling } if file.is_file() =>
        { tail(file, interval, polling); }
    Action::Write { interval: ref sleep, use_locking: ref locking } =>
        { write(file, sleep, locking); }
    _ => { println!("'{}' is not a file!", file.display()) }
};

process::exit(1)
```
-/

/-- The `Action` subcommand enum of the CLI. -/
inductive Action where
  | read (sleep : Nat) (usePolling : Bool)
  | write (interval : Nat) (useLocking : Bool)
deriving DecidableEq, Repr

/-- How the `match` in `main` proceeds. -/
inductive Dispatch where
  /-- `tail(file, interval, polling)` is invoked (delegation to `uu_tail`). -/
  | delegatedTail (sleep : Nat) (usePolling : Bool)
  /-- `write(file, sleep, locking)` is invoked; it never returns. -/
  | enteredWrite (interval : Nat) (useLocking : Bool)
  /-- The fall-through arm: `println!("'{}' is not a file!", ...)`, after
  which control reaches `process::exit(1)`. -/
  | notFile
deriving DecidableEq, Repr

/-- The `match` of `main`: the missing subcommand defaults to
`Read { sleep: 10, use_polling: false }`; the `Read` arm is guarded by
`file.is_file()`. -/
def dispatch (command : Option Action) (isFile : Bool) : Dispatch :=
  match command.getD (Action.read 10 false) with
  | Action.read sleep usePolling =>
    if isFile then Dispatch.delegatedTail sleep usePolling else Dispatch.notFile
  | Action.write interval useLocking => Dispatch.enteredWrite interval useLocking

/-- The process exit status each dispatch outcome leads to, when it leads
to one at all: the fall-through arm reaches `process::exit(1)`;
`enteredWrite` never returns (`->!`); after `tail` returns, control also
reaches `process::exit(1)`. -/
def dispatchExit : Dispatch → Option Nat
  | Dispatch.delegatedTail _ _ => some 1
  | Dispatch.enteredWrite _ _ => none
  | Dispatch.notFile => some 1

/-!
## Decomposition of the tick functions

Each tick only ever appends to the file, to stdout and to the trace.  The
following functions give the appended deltas in closed form, and the
decomposition lemmas prove them against the embedded code.
-/

/-- Bytes `write_line` appends to the file. -/
def wlFile (line : List Char) (env : IOEnv) : List Char :=
  if env.writeOk then line ++ ['\n'] else []

/-- Lines `write_line` prints to stdout. -/
def wlStdout (line : List Char) (env : IOEnv) : List (List Char) :=
  if env.writeOk && env.flushOk then [line] else []

/-- Events `write_line` emits. -/
def wlEvents (line : List Char) (env : IOEnv) : List Event :=
  if env.writeOk then
    if env.flushOk then
      if env.syncOk then
        [Event.appendLine line, Event.flush, Event.echo line, Event.syncData]
      else [Event.appendLine line, Event.flush, Event.echo line]
    else [Event.appendLine line]
  else []

/-- The `io::Result` `write_line` returns. -/
def wlStatus (env : IOEnv) : WStatus :=
  if env.writeOk && env.flushOk && env.syncOk then WStatus.ok else WStatus.err

theorem write_line_decomp (line : List Char) (env : IOEnv) (w : World) :
    write_line line env w =
      ({ fileData := w.fileData ++ wlFile line env,
         stdout := w.stdout ++ wlStdout line env,
         events := w.events ++ wlEvents line env }, wlStatus env) := by
  rcases env with ⟨wo, fo, so⟩
  cases wo <;> cases fo <;> cases so <;>
    simp [write_line, wlFile, wlStdout, wlEvents, wlStatus, World.emit]

theorem write_nolock_tick_decomp (d : Nat) (line : List Char) (env : IOEnv)
    (w : World) :
    write_nolock_tick d line env w =
      ({ fileData := w.fileData ++ wlFile line env,
         stdout := w.stdout ++ wlStdout line env,
         events := w.events ++ Event.sleep d :: wlEvents line env },
       match wlStatus env with
       | WStatus.ok => TickOutcome.next
       | WStatus.err => TickOutcome.fatal msgAppend) := by
  rw [write_nolock_tick, write_line_decomp]
  cases hst : wlStatus env <;> simp [World.emit, hst]

/-- Events a `write_lock` iteration emits after the `try_lock` request,
when the first `get_size` returned `S`. -/
def lockRest (line : List Char) (env : LockEnv) (S : Nat) : List Event :=
  if env.lockGranted then
    match env.size2 with
    | SizeEnv.syncFails => [Event.releaseLock]
    | SizeEnv.metaFails => [Event.syncAll, Event.releaseLock]
    | SizeEnv.ok s2 =>
      if s2 = S then
        Event.syncAll :: Event.measureSize s2 :: wlEvents line env.io
          ++ [Event.releaseLock]
      else [Event.syncAll, Event.measureSize s2, Event.warnRace, Event.releaseLock]
  else [Event.warnContention]

/-- Bytes a `write_lock` iteration appends to the file. -/
def lockFile (line : List Char) (env : LockEnv) (S : Nat) : List Char :=
  if env.lockGranted then
    match env.size2 with
    | SizeEnv.ok s2 => if s2 = S then wlFile line env.io else []
    | _ => []
  else []

/-- Lines a `write_lock` iteration prints to stdout. -/
def lockStdout (line : List Char) (env : LockEnv) (S : Nat) : List (List Char) :=
  if env.lockGranted then
    match env.size2 with
    | SizeEnv.ok s2 => if s2 = S then wlStdout line env.io else []
    | _ => []
  else []

/-- How a `write_lock` iteration ends, when the first `get_size`
returned `S`. -/
def lockOutcome (env : LockEnv) (S : Nat) : TickOutcome :=
  if env.lockGranted then
    match env.size2 with
    | SizeEnv.ok s2 =>
      if s2 = S then
        match wlStatus env.io with
        | WStatus.ok => TickOutcome.next
        | WStatus.err => TickOutcome.fatal msgAppend
      else TickOutcome.next
    | _ => TickOutcome.fatal msgSize
  else TickOutcome.next

theorem write_lock_tick_decomp (d : Nat) (line : List Char) (g : Bool)
    (s2 : SizeEnv) (io : IOEnv) (w : World) (S : Nat) :
    write_lock_tick d line ⟨SizeEnv.ok S, g, s2, io⟩ w =
      ({ fileData := w.fileData ++ lockFile line ⟨SizeEnv.ok S, g, s2, io⟩ S,
         stdout := w.stdout ++ lockStdout line ⟨SizeEnv.ok S, g, s2, io⟩ S,
         events := w.events
           ++ Event.sleep d :: Event.syncAll :: Event.measureSize S
           :: Event.tryLock 0 (S + LINE_SIZE) g
           :: lockRest line ⟨SizeEnv.ok S, g, s2, io⟩ S },
       lockOutcome ⟨SizeEnv.ok S, g, s2, io⟩ S) := by
  cases g with
  | false =>
    simp [write_lock_tick, get_size, lockFile, lockStdout, lockRest, lockOutcome,
      World.emit]
  | true =>
    cases s2 with
    | syncFails =>
      simp [write_lock_tick, get_size, lockFile, lockStdout, lockRest, lockOutcome,
        World.emit]
    | metaFails =>
      simp [write_lock_tick, get_size, lockFile, lockStdout, lockRest, lockOutcome,
        World.emit]
    | ok t =>
      by_cases ht : t = S
      · subst ht
        rw [write_lock_tick]
        simp only [get_size, World.emit]
        rw [write_line_decomp]
        cases hst : wlStatus io <;>
          simp [lockFile, lockStdout, lockRest, lockOutcome, hst, World.emit]
      · simp [write_lock_tick, get_size, lockFile, lockStdout, lockRest, lockOutcome,
          World.emit, ht]

/-- When the lock was granted, the events after the `try_lock` request end
with the lock release. -/
theorem lockRest_ends_release (line : List Char) (s2 : SizeEnv) (io : IOEnv)
    (S : Nat) :
    ∃ pre, lockRest line ⟨SizeEnv.ok S, true, s2, io⟩ S
      = pre ++ [Event.releaseLock] := by
  cases s2 with
  | syncFails => exact ⟨[], rfl⟩
  | metaFails => exact ⟨[Event.syncAll], rfl⟩
  | ok t =>
    by_cases ht : t = S
    · exact ⟨Event.syncAll :: Event.measureSize t :: wlEvents line io,
        by simp [lockRest, ht]⟩
    · exact ⟨[Event.syncAll, Event.measureSize t, Event.warnRace],
        by simp [lockRest, ht]⟩

/-- Once an iteration has panicked, no further iteration runs: the loop
state is frozen at the panic. -/
theorem runTicks_stop (tick : Nat → World → World × TickOutcome) (n : Nat)
    (w w' : World) (msg : List Char)
    (h : runTicks tick n w = (w', some msg)) :
    runTicks tick (n + 1) w = (w', some msg) := by
  simp [runTicks, h]

/-- A loop whose iterations all fall through never terminates on its own:
after any number of iterations it is still running. -/
theorem runTicks_none (tick : Nat → World → World × TickOutcome)
    (h : ∀ i w, (tick i w).2 = TickOutcome.next) (n : Nat) (w : World) :
    (runTicks tick n w).2 = none := by
  induction n with
  | zero => simp [runTicks]
  | succ n ih =>
    rw [runTicks]
    rcases hr : runTicks tick n w with ⟨w1, r⟩
    cases r with
    | none =>
      rcases ht : tick n w1 with ⟨w2, o⟩
      have h2 := h n w1
      rw [ht] at h2
      cases o with
      | next => simp [ht]
      | fatal m => simp at h2
    | some m => rw [hr] at ih; simp at ih

/-!
## Digit lemmas for the timestamp format
-/

/-- `l` is two digit characters. -/
def digits2 : List Char → Bool
  | [a, b] => a.isDigit && b.isDigit
  | _ => false

/-- `l` is three digit characters. -/
def digits3 : List Char → Bool
  | [a, b, c] => a.isDigit && b.isDigit && c.isDigit
  | _ => false

theorem digits2_pad (n : Nat) (h : n < 100) :
    digits2 (padLeft '0' 2 (decRepr n)) = true := by
  revert n h
  decide

set_option maxRecDepth 8000 in
theorem digits3_pad (n : Nat) (h : n < 1000) :
    digits3 (padLeft '0' 3 (decRepr n)) = true := by
  revert n h
  decide

theorem digits2_shape {l : List Char} (h : digits2 l = true) :
    ∃ a b, l = [a, b] ∧ a.isDigit = true ∧ b.isDigit = true := by
  match l with
  | [a, b] =>
    have h2 : a.isDigit = true ∧ b.isDigit = true := by simpa [digits2] using h
    exact ⟨a, b, rfl, h2.1, h2.2⟩
  | [] => simp [digits2] at h
  | [_] => simp [digits2] at h
  | _ :: _ :: _ :: _ => simp [digits2] at h

theorem digits3_shape {l : List Char} (h : digits3 l = true) :
    ∃ a b c, l = [a, b, c] ∧ a.isDigit = true ∧ b.isDigit = true
      ∧ c.isDigit = true := by
  match l with
  | [a, b, c] =>
    refine ⟨a, b, c, rfl, ?_, ?_, ?_⟩ <;> simp [digits3] at h <;> tauto
  | [] => simp [digits3] at h
  | [_] => simp [digits3] at h
  | [_, _] => simp [digits3] at h
  | _ :: _ :: _ :: _ :: _ => simp [digits3] at h

/-- `e` is a `tryLock` request. -/
def isTryLockEv : Event → Bool
  | Event.tryLock _ _ _ => true
  | _ => false

/-!
## The claims
-/

/-- **C1**: in locked mode, every Write Attempt first measures the current
file size `S` (the `measureSize S` event precedes the lock request in the
trace) and then requests a non-blocking exclusive advisory lock over
exactly the byte range `[0, S + LINE_SIZE)`: offset `0`, length
`S + LINE_SIZE`, with `LINE_SIZE = 13` the constant worst-case line
length. -/
theorem lock_range_is_size_plus_line (d : Nat) (line : List Char) (g : Bool)
    (s2 : SizeEnv) (io : IOEnv) (w : World) (S : Nat) :
    LINE_SIZE = 13 ∧
    ∃ rest, (write_lock_tick d line ⟨SizeEnv.ok S, g, s2, io⟩ w).1.events
      = w.events ++ Event.sleep d :: Event.syncAll :: Event.measureSize S
          :: Event.tryLock 0 (S + LINE_SIZE) g :: rest := by
  refine ⟨rfl, lockRest line ⟨SizeEnv.ok S, g, s2, io⟩ S, ?_⟩
  rw [write_lock_tick_decomp]

/-- **C2**: in locked mode, when the size re-measured under the lock
(`S2`) differs from the size `S` measured before acquisition, the attempt
is skipped with a race warning: the file and stdout are unmodified, no
line is appended, flushed or synced, the lock is released and the loop
continues. -/
theorem size_mismatch_skips_write (d : Nat) (line : List Char) (io : IOEnv)
    (w : World) (S S2 : Nat) (hne : S2 ≠ S) :
    write_lock_tick d line ⟨SizeEnv.ok S, true, SizeEnv.ok S2, io⟩ w
      = ({ w with events := w.events ++ [Event.sleep d, Event.syncAll,
            Event.measureSize S, Event.tryLock 0 (S + LINE_SIZE) true,
            Event.syncAll, Event.measureSize S2, Event.warnRace,
            Event.releaseLock] }, TickOutcome.next) ∧
    (write_lock_tick d line ⟨SizeEnv.ok S, true, SizeEnv.ok S2, io⟩ w).1.fileData
      = w.fileData ∧
    (write_lock_tick d line ⟨SizeEnv.ok S, true, SizeEnv.ok S2, io⟩ w).1.stdout
      = w.stdout ∧
    (write_lock_tick d line ⟨SizeEnv.ok S, true, SizeEnv.ok S2, io⟩ w).2
      = TickOutcome.next ∧
    (∀ l, Event.appendLine l ∉ List.drop w.events.length
      (write_lock_tick d line ⟨SizeEnv.ok S, true, SizeEnv.ok S2, io⟩ w).1.events) ∧
    Event.flush ∉ List.drop w.events.length
      (write_lock_tick d line ⟨SizeEnv.ok S, true, SizeEnv.ok S2, io⟩ w).1.events ∧
    Event.syncData ∉ List.drop w.events.length
      (write_lock_tick d line ⟨SizeEnv.ok S, true, SizeEnv.ok S2, io⟩ w).1.events ∧
    Event.warnRace ∈ List.drop w.events.length
      (write_lock_tick d line ⟨SizeEnv.ok S, true, SizeEnv.ok S2, io⟩ w).1.events := by
  have heq := write_lock_tick_decomp d line true (SizeEnv.ok S2) io w S
  simp only [lockFile, lockStdout, lockRest, lockOutcome, if_pos, if_true,
    if_neg hne] at heq
  rw [heq]
  refine ⟨by simp, by simp, by simp, by simp, ?_, ?_, ?_, ?_⟩ <;>
    simp [List.drop_left]

/-- Witness for C2 at `S = 5`, `S2 = 18`. -/
theorem size_mismatch_skips_write_witness :
    write_lock_tick 2 ['x'] ⟨SizeEnv.ok 5, true, SizeEnv.ok 18, ⟨true, true, true⟩⟩
        ⟨[], [], []⟩
      = ({ fileData := [], stdout := [], events := ([] : List Event) ++
            [Event.sleep 2, Event.syncAll, Event.measureSize 5,
             Event.tryLock 0 (5 + LINE_SIZE) true, Event.syncAll,
             Event.measureSize 18, Event.warnRace, Event.releaseLock] },
         TickOutcome.next) ∧
    (write_lock_tick 2 ['x'] ⟨SizeEnv.ok 5, true, SizeEnv.ok 18,
        ⟨true, true, true⟩⟩ ⟨[], [], []⟩).1.fileData = [] := by
  have h := size_mismatch_skips_write 2 ['x'] ⟨true, true, true⟩
    ⟨[], [], []⟩ 5 18 (by decide)
  exact ⟨h.1, h.2.1⟩

/-- **C3**: in locked mode, when the lock is not granted the attempt is
skipped: a contention warning is reported, the file and stdout are
unmodified, no lock release happens (nothing was acquired), exactly one
lock request is made in the tick (no retry), and the loop continues. -/
theorem contention_skips_write (d : Nat) (line : List Char) (s2 : SizeEnv)
    (io : IOEnv) (w : World) (S : Nat) :
    write_lock_tick d line ⟨SizeEnv.ok S, false, s2, io⟩ w
      = ({ w with events := w.events ++ [Event.sleep d, Event.syncAll,
            Event.measureSize S, Event.tryLock 0 (S + LINE_SIZE) false,
            Event.warnContention] }, TickOutcome.next) ∧
    (write_lock_tick d line ⟨SizeEnv.ok S, false, s2, io⟩ w).1.fileData
      = w.fileData ∧
    (write_lock_tick d line ⟨SizeEnv.ok S, false, s2, io⟩ w).1.stdout
      = w.stdout ∧
    (write_lock_tick d line ⟨SizeEnv.ok S, false, s2, io⟩ w).2
      = TickOutcome.next ∧
    Event.warnContention ∈ List.drop w.events.length
      (write_lock_tick d line ⟨SizeEnv.ok S, false, s2, io⟩ w).1.events ∧
    Event.releaseLock ∉ List.drop w.events.length
      (write_lock_tick d line ⟨SizeEnv.ok S, false, s2, io⟩ w).1.events ∧
    (∀ l, Event.appendLine l ∉ List.drop w.events.length
      (write_lock_tick d line ⟨SizeEnv.ok S, false, s2, io⟩ w).1.events) ∧
    Event.flush ∉ List.drop w.events.length
      (write_lock_tick d line ⟨SizeEnv.ok S, false, s2, io⟩ w).1.events ∧
    Event.syncData ∉ List.drop w.events.length
      (write_lock_tick d line ⟨SizeEnv.ok S, false, s2, io⟩ w).1.events ∧
    (List.countP isTryLockEv (List.drop w.events.length
      (write_lock_tick d line ⟨SizeEnv.ok S, false, s2, io⟩ w).1.events)) = 1 := by
  have heq := write_lock_tick_decomp d line false s2 io w S
  simp only [lockFile, lockStdout, lockRest, lockOutcome, if_false,
    Bool.false_eq_true, if_neg] at heq
  rw [heq]
  refine ⟨by simp, by simp, by simp, by simp, ?_, ?_, ?_, ?_, ?_, ?_⟩ <;>
    simp [List.drop_left, isTryLockEv]

/-- **C4**: every line a Write Attempt appends matches `HH:MM:SS.mmm`
followed by a single newline, for every valid local wall-clock instant
(hour `< 24`, minute `< 60`, second `< 60`, milliseconds `< 1000`, which
covers midnight rollover and the instants adjacent to a leap second); in
consequence every appended line is exactly `LINE_SIZE = 13` bytes. -/
theorem timestamp_line_format (h m s ms : Nat)
    (hh : h < 24) (hm : m < 60) (hs : s < 60) (hms : ms < 1000) :
    isTimestampLine (appendedLine h m s ms) = true ∧
    (appendedLine h m s ms).length = LINE_SIZE ∧
    ∀ w, (write_line (nowStr h m s ms) ⟨true, true, true⟩ w).1.fileData
      = w.fileData ++ appendedLine h m s ms := by
  obtain ⟨a1, a2, ea, da1, da2⟩ := digits2_shape (digits2_pad h (by omega))
  obtain ⟨b1, b2, eb, db1, db2⟩ := digits2_shape (digits2_pad m (by omega))
  obtain ⟨c1, c2, ec, dc1, dc2⟩ := digits2_shape (digits2_pad s (by omega))
  obtain ⟨e1, e2, e3, ee, de1, de2, de3⟩ := digits3_shape (digits3_pad ms hms)
  refine ⟨?_, ?_, ?_⟩
  · simp [appendedLine, nowStr, fmtHMS, ea, eb, ec, ee, isTimestampLine,
      da1, da2, db1, db2, dc1, dc2, de1, de2, de3]
  · simp [appendedLine, nowStr, fmtHMS, ea, eb, ec, ee, LINE_SIZE]
  · intro w
    rw [write_line_decomp]
    simp [wlFile, appendedLine]

/-- Witness for C4 at 23:59:59.999. -/
theorem timestamp_line_format_witness :
    isTimestampLine (appendedLine 23 59 59 999) = true ∧
    (appendedLine 23 59 59 999).length = LINE_SIZE ∧
    ∀ w, (write_line (nowStr 23 59 59 999) ⟨true, true, true⟩ w).1.fileData
      = w.fileData ++ appendedLine 23 59 59 999 :=
  timestamp_line_format 23 59 59 999 (by decide) (by decide) (by decide)
    (by decide)

theorem wlStatus_err_of_fail (io : IOEnv)
    (h : io.writeOk = false ∨ io.flushOk = false ∨ io.syncOk = false) :
    wlStatus io = WStatus.err := by
  rcases io with ⟨a, b, c⟩
  rcases h with h | h | h <;> simp_all [wlStatus]

/-- **C5**: in both modes, an I/O failure during write, flush or data-sync
is fatal: the iteration ends in a panic carrying the diagnostic message
`"Cannot append a line to the file."`, and a panicked loop never runs a
further iteration (no retry, no continuation). -/
theorem io_failure_is_fatal :
    (∀ d line io w,
       io.writeOk = false ∨ io.flushOk = false ∨ io.syncOk = false →
       (write_nolock_tick d line io w).2 = TickOutcome.fatal msgAppend) ∧
    (∀ d line io w S,
       io.writeOk = false ∨ io.flushOk = false ∨ io.syncOk = false →
       (write_lock_tick d line ⟨SizeEnv.ok S, true, SizeEnv.ok S, io⟩ w).2
         = TickOutcome.fatal msgAppend) ∧
    (∀ tick n w w2 msg, runTicks tick n w = (w2, some msg) →
       runTicks tick (n + 1) w = (w2, some msg)) := by
  refine ⟨?_, ?_, ?_⟩
  · intro d line io w h
    rw [write_nolock_tick_decomp]
    simp [wlStatus_err_of_fail io h]
  · intro d line io w S h
    rw [write_lock_tick_decomp]
    simp [lockOutcome, wlStatus_err_of_fail io h]
  · intro tick n w w2 msg h
    simp [runTicks, h]

/-- Witness for C5: sync failure in unlocked mode, write failure in locked
mode, and a stopped loop staying stopped. -/
theorem io_failure_is_fatal_witness :
    (write_nolock_tick 0 ['x'] ⟨true, true, false⟩ ⟨[], [], []⟩).2
      = TickOutcome.fatal msgAppend ∧
    (write_lock_tick 0 ['x'] ⟨SizeEnv.ok 0, true, SizeEnv.ok 0,
        ⟨false, true, true⟩⟩ ⟨[], [], []⟩).2 = TickOutcome.fatal msgAppend ∧
    runTicks (fun _ w => (w, TickOutcome.fatal msgAppend)) 2 ⟨[], [], []⟩
      = (⟨[], [], []⟩, some msgAppend) :=
  ⟨io_failure_is_fatal.1 0 ['x'] ⟨true, true, false⟩ ⟨[], [], []⟩
     (Or.inr (Or.inr rfl)),
   io_failure_is_fatal.2.1 0 ['x'] ⟨false, true, true⟩ ⟨[], [], []⟩ 0
     (Or.inl rfl),
   io_failure_is_fatal.2.2 (fun _ w => (w, TickOutcome.fatal msgAppend)) 1
     ⟨[], [], []⟩ ⟨[], [], []⟩ msgAppend rfl⟩

/-- **C6**: in locked mode, whenever the lock was granted the iteration's
trace ends with the lock release — on the successful-write path, on the
size-mismatch skip path, and on the unwind path after a failed `get_size`
or a failed write/flush/sync — so an acquired lock is never held past its
Write Attempt, hence never across scheduler ticks. -/
theorem lock_released_by_end_of_attempt (d : Nat) (line : List Char)
    (s2 : SizeEnv) (io : IOEnv) (w : World) (S : Nat) :
    ∃ pre, (write_lock_tick d line ⟨SizeEnv.ok S, true, s2, io⟩ w).1.events
      = w.events ++ pre ++ [Event.releaseLock] := by
  obtain ⟨p, hp⟩ := lockRest_ends_release line s2 io S
  refine ⟨Event.sleep d :: Event.syncAll :: Event.measureSize S
    :: Event.tryLock 0 (S + LINE_SIZE) true :: p, ?_⟩
  rw [write_lock_tick_decomp, hp]
  simp

theorem sleep_not_mem_wlEvents (d2 : Nat) (line : List Char) (io : IOEnv) :
    Event.sleep d2 ∉ wlEvents line io := by
  rcases io with ⟨a, b, c⟩
  cases a <;> cases b <;> cases c <;> simp [wlEvents]

theorem sleep_not_mem_lockRest (d2 : Nat) (line : List Char) (env : LockEnv)
    (S : Nat) : Event.sleep d2 ∉ lockRest line env S := by
  rcases env with ⟨s1, g, s2, io⟩
  cases g with
  | false => simp [lockRest]
  | true =>
    cases s2 with
    | syncFails => simp [lockRest]
    | metaFails => simp [lockRest]
    | ok t =>
      by_cases ht : t = S
      · simp [lockRest, ht, sleep_not_mem_wlEvents]
      · simp [lockRest, ht]

/-- **C7**: both loops first suspend for the full caller-supplied period —
the tick trace starts with the single `sleep d` event, `d = 0` included
(no validation) — then run exactly one Write Attempt whose events contain
no further suspension; absent a fatal I/O error an iteration always falls
through to the next one, and a loop all of whose iterations fall through
is still running after any number of iterations (no programmatic exit). -/
theorem scheduler_sleep_then_one_attempt :
    (∀ d line io w, ∃ rest,
       (write_nolock_tick d line io w).1.events
         = w.events ++ Event.sleep d :: rest ∧ ∀ d2, Event.sleep d2 ∉ rest) ∧
    (∀ d line env w, ∃ rest,
       (write_lock_tick d line env w).1.events
         = w.events ++ Event.sleep d :: rest ∧ ∀ d2, Event.sleep d2 ∉ rest) ∧
    (∀ d line w,
       (write_nolock_tick d line ⟨true, true, true⟩ w).2 = TickOutcome.next) ∧
    (∀ tick, (∀ i w, (tick i w).2 = TickOutcome.next) →
       ∀ n w, (runTicks tick n w).2 = none) := by
  refine ⟨?_, ?_, ?_, runTicks_none⟩
  · intro d line io w
    refine ⟨wlEvents line io, ?_, fun d2 => sleep_not_mem_wlEvents d2 line io⟩
    rw [write_nolock_tick_decomp]
  · intro d line env w
    rcases env with ⟨s1, g, s2, io⟩
    cases s1 with
    | syncFails =>
      exact ⟨[], by simp [write_lock_tick, get_size, World.emit], by simp⟩
    | metaFails =>
      exact ⟨[Event.syncAll], by simp [write_lock_tick, get_size, World.emit],
        by simp⟩
    | ok S =>
      refine ⟨Event.syncAll :: Event.measureSize S
        :: Event.tryLock 0 (S + LINE_SIZE) g
        :: lockRest line ⟨SizeEnv.ok S, g, s2, io⟩ S, ?_, ?_⟩
      · rw [write_lock_tick_decomp]
      · intro d2
        simp [sleep_not_mem_lockRest]
  · intro d line w
    rw [write_nolock_tick_decomp]
    simp [wlStatus]

/-- Witness for C7 at period `0`: the tick still records exactly one
suspension of the supplied length before the attempt, and an all-`next`
loop is still running after three iterations. -/
theorem scheduler_sleep_then_one_attempt_witness :
    (∃ rest, (write_nolock_tick 0 ['x'] ⟨true, true, true⟩
        ⟨[], [], []⟩).1.events = ([] : List Event) ++ Event.sleep 0 :: rest ∧
      ∀ d2, Event.sleep d2 ∉ rest) ∧
    (runTicks (fun _ w => (w, TickOutcome.next)) 3 ⟨[], [], []⟩).2 = none :=
  ⟨scheduler_sleep_then_one_attempt.1 0 ['x'] ⟨true, true, true⟩ ⟨[], [], []⟩,
   scheduler_sleep_then_one_attempt.2.2.2 (fun _ w => (w, TickOutcome.next))
     (fun _ _ => rfl) 3 ⟨[], [], []⟩⟩

/-- **C8**: `get_size` first issues the full `sync_all` and only then reads
the size from the metadata (the `syncAll` event precedes `measureSize` in
its trace), and the `S` of the lock-range upper bound `S + LINE_SIZE` is
exactly the value this routine measured at the start of the tick. -/
theorem get_size_syncs_then_measures (w : World) (s : Nat) :
    (get_size (SizeEnv.ok s) w).1.events
      = w.events ++ [Event.syncAll, Event.measureSize s] ∧
    (get_size (SizeEnv.ok s) w).2 = some s ∧
    (∀ d line g s2 io S, ∃ rest,
      (write_lock_tick d line ⟨SizeEnv.ok S, g, s2, io⟩ w).1.events
        = w.events ++ [Event.sleep d] ++ [Event.syncAll, Event.measureSize S]
          ++ Event.tryLock 0 (S + LINE_SIZE) g :: rest) := by
  refine ⟨by simp [get_size, World.emit], rfl, ?_⟩
  intro d line g s2 io S
  refine ⟨lockRest line ⟨SizeEnv.ok S, g, s2, io⟩ S, ?_⟩
  rw [write_lock_tick_decomp]
  simp

/-- **C9**: `read` mode — requested explicitly or as the default — on a
path that is not an existing regular file reaches the fall-through arm:
the "not a file" message is printed and the process exits with status 1;
`tail` is never invoked (for a non-file path no command dispatches to the
follow mechanism). -/
theorem read_on_nonfile_exits_one (sleep : Nat) (polling : Bool) :
    dispatch (some (Action.read sleep polling)) false = Dispatch.notFile ∧
    dispatch none false = Dispatch.notFile ∧
    dispatchExit Dispatch.notFile = some 1 ∧
    ∀ cmd, dispatch cmd false = Dispatch.notFile ∨
      ∃ i l, dispatch cmd false = Dispatch.enteredWrite i l := by
  refine ⟨rfl, rfl, rfl, ?_⟩
  intro cmd
  match cmd with
  | none => exact Or.inl rfl
  | some (Action.read a b) => exact Or.inl rfl
  | some (Action.write i l) => exact Or.inr ⟨i, l, rfl⟩

/-- **C10**: `write_line`'s observable effects happen in the order append
→ flush → echo → data-sync; when only the final data-sync fails the line
has therefore already been appended to the file and echoed to stdout when
the fatal panic is raised — a sync failure does not leave the file
unchanged. -/
theorem write_line_effect_order (line : List Char) (w : World) (d : Nat) :
    (write_line line ⟨true, true, true⟩ w).1.events
      = w.events ++ [Event.appendLine line, Event.flush, Event.echo line,
          Event.syncData] ∧
    write_line line ⟨true, true, false⟩ w
      = ({ fileData := w.fileData ++ line ++ ['\n'],
           stdout := w.stdout ++ [line],
           events := w.events ++ [Event.appendLine line, Event.flush,
             Event.echo line] }, WStatus.err) ∧
    write_nolock_tick d line ⟨true, true, false⟩ w
      = ({ fileData := w.fileData ++ line ++ ['\n'],
           stdout := w.stdout ++ [line],
           events := w.events ++ [Event.sleep d, Event.appendLine line,
             Event.flush, Event.echo line] }, TickOutcome.fatal msgAppend) := by
  refine ⟨?_, ?_, ?_⟩
  · rw [write_line_decomp]
    simp [wlEvents]
  · rw [write_line_decomp]
    simp [wlFile, wlStdout, wlEvents, wlStatus]
  · rw [write_nolock_tick_decomp]
    simp [wlFile, wlStdout, wlEvents, wlStatus]

end WatcheRS
